import Mathlib

/-!
# Payroll-Automation-System: verification of the payment scheduling core

Shallow embedding of the payment scheduling and transfer orchestration code of
the Contractor-x/Payroll-Automation-System repository:

* `backend/services/Payment_scheduler.py` — the daily sweep
  (`check_pending_payments`), the one-shot worker payment
  (`process_scheduled_payment`) and the due-date calculator
  (`calculate_next_payment_date`);
* `backend/routes/payment.py` — the manual payment endpoint
  (`process_payment`) and its balance admission check;
* `backend/services/paystack.py` — the transfer pipeline
  (`process_worker_payment`) and the fee helpers (`get_transaction_fee`,
  `calculate_net_amount`).

Modelling conventions:

* Python `datetime.date` / `datetime.datetime` become the `Date` and
  `DateTime` structures below (seconds-in-day resolution; the source's
  microsecond resolution is irrelevant to every property proved here).
* Ambient clock reads are made explicit parameters: each flow receives
  `utcnow : DateTime` (the value of every `datetime.utcnow()` call inside the
  flow, which the source performs within microseconds of each other) and
  `todayLocal : Date` (the value of `datetime.now().date()`, the server's
  local calendar day, which can differ from `utcnow.date` by time zone).
* Currency amounts (`Numeric(10,2)` columns, Python floats) become `ℚ`; all
  amounts appearing in the source's arithmetic here are exactly representable.
* SQLAlchemy queries become `List.filter` / `List.find?` over in-memory
  tables; a SQL comparison against a NULL column is never satisfied, so a
  filter `Worker.next_payment_date <= x` drops workers whose
  `next_payment_date` is NULL — the embedding matches a `none` field to
  `false` accordingly.
* Provider HTTP responses are inputs: an `Except` value distinguishes a
  raised `requests` exception (network/timeout) from a parsed JSON body, and
  `Option` fields model possibly-missing JSON keys (whose access raises
  `KeyError`, caught by the source's `except Exception` handlers) and
  possibly-null JSON values.
-/

namespace Payroll

/-- A calendar date, mirroring Python `datetime.date`. -/
structure Date where
  year : Nat
  month : Nat
  day : Nat
deriving DecidableEq, Repr

/-- A timestamp: a date plus a second-of-day, mirroring `datetime.datetime`. -/
structure DateTime where
  date : Date
  sec : Nat
deriving DecidableEq, Repr

/-- `datetime.max.time()` of a day, at the seconds resolution of the model. -/
def dayEndSec : Nat := 86399

/-- Lexicographic order on dates, as Python compares `date` values. -/
def Date.le (a b : Date) : Bool :=
  a.year < b.year ||
    (a.year == b.year && (a.month < b.month ||
      (a.month == b.month && a.day ≤ b.day)))

/-- Lexicographic order on timestamps, as Python compares `datetime` values. -/
def DateTime.le (a b : DateTime) : Bool :=
  Date.le a.date b.date && (a.date != b.date || a.sec ≤ b.sec)

/-- Gregorian leap-year test (`calendar.isleap` semantics, as used by
`date.replace` validity). -/
def isLeap (y : Nat) : Bool :=
  (y % 4 == 0 && y % 100 != 0) || y % 400 == 0

/-- Number of days of month `m` of year `y` (the bound `date.replace(day=...)`
checks before raising `ValueError`). -/
def daysInMonth (y m : Nat) : Nat :=
  if m == 2 then (if isLeap y then 29 else 28)
  else if m == 4 || m == 6 || m == 9 || m == 11 then 30
  else 31

/-- A date is valid when its month and day are in range, as Python `date`
guarantees for every constructed value. -/
def validDate (d : Date) : Prop :=
  1 ≤ d.month ∧ d.month ≤ 12 ∧ 1 ≤ d.day ∧ d.day ≤ daysInMonth d.year d.month

instance (d : Date) : Decidable (validDate d) := by
  unfold validDate; infer_instance

/-- The day after `d` (used to build `timedelta` day addition). -/
def succDate (d : Date) : Date :=
  if d.day < daysInMonth d.year d.month then ⟨d.year, d.month, d.day + 1⟩
  else if d.month < 12 then ⟨d.year, d.month + 1, 1⟩
  else ⟨d.year + 1, 1, 1⟩

/-- The day before `d`, mirroring `d - timedelta(days=1)`. -/
def predDate (d : Date) : Date :=
  if 1 < d.day then ⟨d.year, d.month, d.day - 1⟩
  else if 1 < d.month then ⟨d.year, d.month - 1, daysInMonth d.year (d.month - 1)⟩
  else ⟨d.year - 1, 12, 31⟩

/-- `d + timedelta(days=n)`. -/
def addDays : Date → Nat → Date
  | d, 0 => d
  | d, n + 1 => addDays (succDate d) n

/-- `calculate_next_payment_date` of `Payment_scheduler.py` (an identical
copy sits at the bottom of `routes/payment.py`).  The source reads
`datetime.now().date()` for `today`; the embedding passes it explicitly.
The source returns `datetime.combine(next_date, datetime.min.time())`; the
embedding returns the `Date` part, and call sites re-attach second `0`.
The `try/except ValueError` around `next_month.replace(day=today.day)` is
modelled by the explicit bound check of `date.replace`. -/
def calculate_next_payment_date (payment_frequency : String) (today : Date) : Date :=
  if payment_frequency == "weekly" then addDays today 7
  else if payment_frequency == "bi-weekly" then addDays today 14
  else
    let next_month : Date :=
      if today.month == 12 then ⟨today.year + 1, 1, 1⟩
      else ⟨today.year, today.month + 1, 1⟩
    if today.day ≤ daysInMonth next_month.year next_month.month then
      ⟨next_month.year, next_month.month, today.day⟩
    else if next_month.month == 12 then
      predDate ⟨next_month.year + 1, 1, 1⟩
    else
      predDate ⟨next_month.year, next_month.month + 1, 1⟩

/-- Modelled from the spec: `nextDueDate(frequency, fromDate)` of §4.1 of the
specification, written from the spec's words for refinement comparison with
the source's `calculate_next_payment_date` — weekly adds 7 days, bi-weekly
adds 14, monthly moves to the same day of the following month clamped to that
month's last day, December rolling the year forward. -/
def specNextDueDate (frequency : String) (fromDate : Date) : Date :=
  if frequency == "weekly" then addDays fromDate 7
  else if frequency == "bi-weekly" then addDays fromDate 14
  else
    let fy : Nat := if fromDate.month == 12 then fromDate.year + 1 else fromDate.year
    let fm : Nat := if fromDate.month == 12 then 1 else fromDate.month + 1
    if fromDate.day ≤ daysInMonth fy fm then ⟨fy, fm, fromDate.day⟩
    else ⟨fy, fm, daysInMonth fy fm⟩

/-! ## Data model (`backend/database.py`) -/

/-- The `workers` table row (`database.py`), restricted to the columns the
scheduling core reads. -/
structure Worker where
  id : Nat
  name : String
  account_number : String
  bank_code : String
  salary_amount : ℚ
  payment_frequency : String
  last_paid : Option DateTime
  next_payment_date : Option DateTime
  is_active : Bool
deriving DecidableEq, Repr

/-- The `payment_history` table row (`database.py`). -/
structure PaymentHistory where
  id : Nat
  worker_id : Nat
  amount : ℚ
  status : String
  transaction_reference : Option String
  paystack_reference : Option String
  approved_by : Option Nat
  paid_at : Option DateTime
  created_at : DateTime
deriving DecidableEq, Repr

/-- The database state the scheduling core reads and writes: the `workers`
and `payment_history` tables, the audit log (kept as `(user_id, action)`
pairs; the free-form detail strings are elided) and the next primary key. -/
structure DBState where
  workers : List Worker
  payments : List PaymentHistory
  audits : List (Nat × String)
  nextId : Nat
deriving DecidableEq, Repr

/-- Replace the row of worker `w` (matched by primary key) by `w`, as a
SQLAlchemy session flush does for a mutated mapped object. -/
def updateWorker (ws : List Worker) (w : Worker) : List Worker :=
  ws.map (fun x => if x.id == w.id then w else x)

/-! ## Provider responses (`paystack.py`, `routes/payment.py`)

Each provider call either raises a `requests` exception (`Except.error`,
wrapped by the source into an `Exception` in `paystack.py` and into an HTTP
503 `HTTPException` in `routes/payment.py`) or yields a parsed JSON body. -/

/-- Parsed body of `GET /balance`: the truthiness of `"status"`, and the
`"data"` list of balance entries.  An entry is the value of its `"balance"`
key in kobo; `none` models a missing key, whose access raises `KeyError`. -/
structure BalanceJson where
  status : Bool
  data : List (Option ℚ)
deriving DecidableEq, Repr

/-- Parsed body of `POST /transferrecipient`: the truthiness of `"status"`
and `data["recipient_code"]` (`none` models the key path being absent, whose
access raises a caught `KeyError`/`TypeError`). -/
structure RecipientJson where
  status : Bool
  recipient_code : Option String
deriving DecidableEq, Repr

/-- Parsed body of `POST /transfer`: the truthiness of `"status"`, and the
`data["reference"]` / `data["transfer_code"]` key paths.  The outer `Option`
models a missing key (access raises `KeyError`); the inner `Option` models an
explicit JSON `null` value, which Python reads as `None` without error. -/
structure TransferJson where
  status : Bool
  reference : Option (Option String)
  transfer_code : Option (Option String)
deriving DecidableEq, Repr

/-- The provider's behaviour for one flow: the response of each endpoint the
flow may call. -/
structure ProviderEnv where
  balance : Except Unit BalanceJson
  recipient : Except String RecipientJson
  transfer : Except String TransferJson
deriving Repr

/-! ## Fee helpers and transfer pipeline (`backend/services/paystack.py`) -/

/-- `PaystackService.get_transaction_fee` (`paystack.py`): tiered flat fee. -/
def get_transaction_fee (amount : ℚ) : ℚ :=
  if amount < 5000 then 10
  else if amount ≤ 50000 then 25
  else 50

/-- `PaystackService.calculate_net_amount` (`paystack.py`). -/
def calculate_net_amount (gross_amount : ℚ) : ℚ × ℚ :=
  let fee := get_transaction_fee gross_amount
  let net_amount := gross_amount - fee
  (net_amount, fee)

/-- `PaystackService.process_worker_payment` (`paystack.py`): recipient
creation followed by transfer initiation, the whole body wrapped in
`try/except Exception` returning `(success, message, reference)`.  A raised
exception from a step — a network error surfaced by the step helpers, or a
`KeyError` from a missing JSON key — is caught and mapped to
`(False, str(e), None)`. -/
def process_worker_payment (env : ProviderEnv) : Bool × String × Option String :=
  match env.recipient with
  | .error e => (false, "Transfer recipient creation failed: " ++ e, none)
  | .ok rd =>
    if !rd.status then (false, "Failed to create transfer recipient", none)
    else
      match rd.recipient_code with
      | none => (false, "KeyError", none)
      | some _rc =>
        match env.transfer with
        | .error e => (false, "Transfer initiation failed: " ++ e, none)
        | .ok td =>
          if !td.status then (false, "Failed to initiate transfer", none)
          else
            match td.reference with
            | none => (false, "KeyError", none)
            | some r => (true, "Payment processed successfully", r)

/-! ## The daily sweep (`Payment_scheduler.check_pending_payments`) -/

/-- The duplicate guard query of the sweep loop body
(`Payment_scheduler.py`): is there a `pending` record of worker `wid`
created at or after `datetime.combine(today, datetime.min.time())`? -/
def hasPendingToday (ps : List PaymentHistory) (wid : Nat) (today : Date) : Bool :=
  ps.any fun p =>
    p.worker_id == wid && p.status == "pending" && DateTime.le ⟨today, 0⟩ p.created_at

/-- The worker query of the sweep (`Payment_scheduler.py`): active
workers with `next_payment_date <= datetime.combine(today, datetime.max.time())`.
A NULL `next_payment_date` never satisfies the SQL comparison, hence the
`none` branch yields `false`. -/
def workers_due (s : DBState) (today : Date) : List Worker :=
  s.workers.filter fun w =>
    w.is_active &&
      (match w.next_payment_date with
       | some d => DateTime.le d ⟨today, dayEndSec⟩
       | none => false)

/-- The `for worker in workers_due` loop of `check_pending_payments`: for
each worker without a pending record created today, insert a fresh `pending`
record (amount = salary, `created_at = datetime.utcnow()`). -/
def sweepLoop (today : Date) (utcnow : DateTime) : List Worker → DBState → DBState
  | [], st => st
  | w :: ws, st =>
    if hasPendingToday st.payments w.id today then sweepLoop today utcnow ws st
    else
      sweepLoop today utcnow ws
        { st with
            payments := st.payments ++
              [⟨st.nextId, w.id, w.salary_amount, "pending", none, none, none, none, utcnow⟩],
            nextId := st.nextId + 1 }

/-- `PaymentScheduler.check_pending_payments` (`Payment_scheduler.py`): the
daily sweep body.  `today = datetime.now().date()`, `utcnow` the value of the
`datetime.utcnow()` stamps of the created records. -/
def check_pending_payments (s : DBState) (today : Date) (utcnow : DateTime) : DBState :=
  sweepLoop today utcnow (workers_due s today) s

/-- The set of workers the sweep actually creates a record for — the due
query minus the workers already guarded by a pending record created today.
This is the code's realization of the Payment Ledger `listDue` operation of
the spec. -/
def listDue (s : DBState) (today : Date) : List Worker :=
  (workers_due s today).filter fun w => !hasPendingToday s.payments w.id today

/-! ## The success transition, as the source performs it

Neither flow has a standalone close operation: the transition is a block of
unconditional field assignments, extracted here verbatim so it can be stated
about on its own.  There is no already-terminal guard anywhere in the
source: the assignments run whatever the record's current status is. -/

/-- The record-side success transition: the assignment block of
`Payment_scheduler.py` lines 174–176 (`routes/payment.py` lines 304–307
additionally stamps `paystack_reference`).  Unconditional: it does not
inspect the record's current status. -/
def closePaymentSuccess (r : PaymentHistory) (reference : Option String)
    (paidAt : DateTime) : PaymentHistory :=
  { r with status := "success", transaction_reference := reference,
           paid_at := some paidAt }

/-- The worker-side success transition: `Payment_scheduler.py` lines
179–182 (`routes/payment.py` lines 310–313): stamp `last_paid` with the
current UTC time and recompute `next_payment_date` from the current local
date (`calculate_next_payment_date` reads `datetime.now().date()`, passed
here as `todayLocal`) — the stored `paid_at` plays no part. -/
def advanceWorkerSchedule (w : Worker) (utcnow : DateTime) (todayLocal : Date) : Worker :=
  { w with last_paid := some utcnow,
           next_payment_date :=
             some ⟨calculate_next_payment_date w.payment_frequency todayLocal, 0⟩ }

/-! ## One-shot worker payment (`PaymentScheduler.process_scheduled_payment`) -/

/-- `PaymentScheduler.process_scheduled_payment` (`Payment_scheduler.py`):
look the worker up, create a `pending` record with no duplicate check, run
`paystack_service.process_worker_payment`, then set the record to
`success`/`failed`; on success also advance the worker
(`last_paid = datetime.utcnow()`,
`next_payment_date = calculate_next_payment_date(frequency)` which reads
`datetime.now().date()`, passed here as `todayLocal`). -/
def process_scheduled_payment (s : DBState) (worker_id : Nat) (env : ProviderEnv)
    (utcnow : DateTime) (todayLocal : Date) : DBState :=
  match s.workers.find? (fun w => w.id == worker_id) with
  | none => s
  | some w =>
    if !w.is_active then s
    else
      let record : PaymentHistory :=
        ⟨s.nextId, w.id, w.salary_amount, "pending", none, none, none, none, utcnow⟩
      let result := process_worker_payment env
      let closed : PaymentHistory :=
        if result.1 then closePaymentSuccess record result.2.2 utcnow
        else { record with status := "failed" }
      let w2 : Worker := advanceWorkerSchedule w utcnow todayLocal
      { workers := if result.1 then updateWorker s.workers w2 else s.workers,
        payments := s.payments ++ [closed],
        audits := s.audits ++ [(0, "scheduled_payment_processed")],
        nextId := s.nextId + 1 }

/-! ## Manual payment endpoint (`routes/payment.py`, `process_payment`) -/

/-- The `HTTPException`s the manual payment endpoint can raise, by HTTP
status and cause. -/
inductive PayErr where
  /-- 404, worker id not found. -/
  | workerNotFound : PayErr
  /-- 400, worker not active. -/
  | workerInactive : PayErr
  /-- 400, "Amount must be positive". -/
  | invalidAmount : PayErr
  /-- 400, "Insufficient balance". -/
  | insufficientBalance : PayErr
  /-- 503, re-raised provider network `HTTPException`. -/
  | providerUnavailable (msg : String) : PayErr
  /-- 500, "Payment processing failed" catch-all. -/
  | processingFailed (msg : String) : PayErr
deriving DecidableEq, Repr

/-- `amount = payment_request.amount or float(worker.salary_amount)`
(`routes/payment.py` line 236).  Python `or` falls back to the salary when
the supplied amount is falsy — i.e. both when it is `None` and when it is
`0.0`. -/
def effAmount (reqAmount : Option ℚ) (salary : ℚ) : ℚ :=
  match reqAmount with
  | none => salary
  | some a => if a == 0 then salary else a

/-- `process_payment` (`routes/payment.py`): the manual payment endpoint.
Steps, in source order: worker lookup (404), active check (400),
`amount = payment_request.amount or float(worker.salary_amount)` (Python
`or`: `None` *and* `0.0` both fall back to the salary), `amount <= 0` check
(400), balance admission check (network failure re-raises 503; a parsed body
with falsy status/data or a missing balance key is ignored by
`except Exception: pass`; a sufficient-balance body passes; an insufficient
one raises 400) — all BEFORE any record is created.  Only then is a
`pending` record inserted and the recipient/transfer sequence run inline;
any failure there sets the record to `failed` and re-raises (503 for network
`HTTPException`s, 500 with an audit entry otherwise); success stamps the
record, advances the worker and writes an audit entry. -/
def process_payment (s : DBState) (worker_id : Nat) (reqAmount : Option ℚ)
    (env : ProviderEnv) (current_user : Nat) (utcnow : DateTime) (todayLocal : Date) :
    Except PayErr PaymentHistory × DBState :=
  match s.workers.find? (fun w => w.id == worker_id) with
  | none => (.error .workerNotFound, s)
  | some w =>
    if !w.is_active then (.error .workerInactive, s)
    else
      let amount : ℚ := effAmount reqAmount w.salary_amount
      if amount ≤ 0 then (.error .invalidAmount, s)
      else
        match env.balance with
        | .error _ => (.error (.providerUnavailable "Paystack API error"), s)
        | .ok bd =>
          let insufficient : Bool :=
            if bd.status && !bd.data.isEmpty then
              match bd.data.head? with
              | some (some bal) => decide (bal / 100 < amount)
              | _ => false
            else false
          if insufficient then (.error .insufficientBalance, s)
          else
            let record : PaymentHistory :=
              ⟨s.nextId, w.id, amount, "pending", none, none, some current_user, none, utcnow⟩
            let failState (auditing : Bool) : DBState :=
              { s with
                  payments := s.payments ++ [{ record with status := "failed" }],
                  audits := if auditing then s.audits ++ [(current_user, "payment_failed")]
                            else s.audits,
                  nextId := s.nextId + 1 }
            match env.recipient with
            | .error e => (.error (.providerUnavailable e), failState false)
            | .ok rd =>
              if !rd.status then
                (.error (.processingFailed "Failed to create transfer recipient"),
                 failState true)
              else
                match rd.recipient_code with
                | none => (.error (.processingFailed "KeyError"), failState true)
                | some _rc =>
                  match env.transfer with
                  | .error e => (.error (.providerUnavailable e), failState false)
                  | .ok td =>
                    if !td.status then
                      (.error (.processingFailed "Failed to initiate transfer"),
                       failState true)
                    else
                      match td.reference with
                      | none => (.error (.processingFailed "KeyError"), failState true)
                      | some refv =>
                        match td.transfer_code with
                        | none => (.error (.processingFailed "KeyError"), failState true)
                        | some tcv =>
                          let closed : PaymentHistory :=
                            { closePaymentSuccess record refv utcnow with
                                paystack_reference := tcv }
                          let w2 : Worker := advanceWorkerSchedule w utcnow todayLocal
                          (.ok closed,
                           { workers := updateWorker s.workers w2,
                             payments := s.payments ++ [closed],
                             audits := s.audits ++ [(current_user, "payment_processed")],
                             nextId := s.nextId + 1 })

/-! ## Concrete fixtures

Small closed states and provider behaviours used by the concrete
evaluations below. -/

/-- A calendar day used as the server's local date in concrete runs. -/
def today0 : Date := ⟨2024, 5, 1⟩

/-- A UTC timestamp within `today0`. -/
def now0 : DateTime := ⟨today0, 7200⟩

/-- An active monthly worker due on `today0`. -/
def wkA : Worker :=
  ⟨1, "Ada", "0123456789", "058", 50000, "monthly", none, some ⟨⟨2024, 4, 1⟩, 0⟩, true⟩

/-- An active weekly worker, due end of June 2024. -/
def wkWeekly : Worker :=
  ⟨2, "Bem", "0234567890", "044", 1000, "weekly", none, some ⟨⟨2024, 6, 30⟩, 0⟩, true⟩

/-- An active worker whose `next_payment_date` is NULL. -/
def wkNull : Worker :=
  ⟨3, "Chi", "0345678901", "058", 2000, "monthly", none, none, true⟩

/-- A `pending` record of worker 1 created during `today0`. -/
def pendingA : PaymentHistory :=
  ⟨7, 1, 50000, "pending", none, none, none, none, ⟨today0, 3600⟩⟩

/-- State: worker 1 with a pending record already open for `today0`. -/
def stPending : DBState := ⟨[wkA], [pendingA], [], 8⟩

/-- State: worker 1 due, no payment history. -/
def stFresh : DBState := ⟨[wkA], [], [], 1⟩

/-- State: the weekly worker only. -/
def stWeekly : DBState := ⟨[wkWeekly], [], [], 1⟩

/-- State: the NULL-`next_payment_date` worker only. -/
def stNull : DBState := ⟨[wkNull], [], [], 1⟩

/-- Provider behaviour: ample balance (₦1,000,000), recipient and transfer
succeed, transfer reference "TRX123". -/
def envOk : ProviderEnv :=
  ⟨.ok ⟨true, [some 100000000]⟩, .ok ⟨true, some "RCP_1"⟩,
   .ok ⟨true, some (some "TRX123"), some (some "TRF_1")⟩⟩

/-- Provider behaviour: balance ₦1,000 (100000 kobo), otherwise as `envOk`. -/
def envLowBalance : ProviderEnv :=
  ⟨.ok ⟨true, [some 100000]⟩, .ok ⟨true, some "RCP_1"⟩,
   .ok ⟨true, some (some "TRX123"), some (some "TRF_1")⟩⟩

/-- Provider behaviour: transfer succeeds but its `"reference"` value is
JSON `null`. -/
def envNullRef : ProviderEnv :=
  ⟨.ok ⟨true, [some 100000000]⟩, .ok ⟨true, some "RCP_1"⟩,
   .ok ⟨true, some none, some (some "TRF_1")⟩⟩

/-- Provider behaviour: the recipient call raises a network exception. -/
def envNetFail : ProviderEnv :=
  ⟨.ok ⟨true, [some 100000000]⟩, .error "Connection timed out",
   .ok ⟨true, some (some "TRX123"), some (some "TRF_1")⟩⟩

/-! ## Structural lemmas about the sweep loop -/

/-- The sweep loop never touches the `workers` table. -/
theorem sweepLoop_workers (today : Date) (u : DateTime) :
    ∀ (ws : List Worker) (st : DBState), (sweepLoop today u ws st).workers = st.workers
  | [], _ => rfl
  | w :: ws, st => by
    unfold sweepLoop
    split
    · exact sweepLoop_workers today u ws st
    · exact sweepLoop_workers today u ws _

/-- The sweep loop never writes an audit entry. -/
theorem sweepLoop_audits (today : Date) (u : DateTime) :
    ∀ (ws : List Worker) (st : DBState), (sweepLoop today u ws st).audits = st.audits
  | [], _ => rfl
  | w :: ws, st => by
    unfold sweepLoop
    split
    · exact sweepLoop_audits today u ws st
    · exact sweepLoop_audits today u ws _

/-- The sweep loop only appends records, and every record it appends is
`pending` with `created_at` the sweep's `utcnow`. -/
theorem sweepLoop_payments (today : Date) (u : DateTime) :
    ∀ (ws : List Worker) (st : DBState),
      ∃ new, (sweepLoop today u ws st).payments = st.payments ++ new ∧
        ∀ p ∈ new, p.status = "pending" ∧ p.created_at = u
  | [], st => ⟨[], by simp [sweepLoop]⟩
  | w :: ws, st => by
    unfold sweepLoop
    split
    · exact sweepLoop_payments today u ws st
    · obtain ⟨new, h1, h2⟩ := sweepLoop_payments today u ws
        { st with
            payments := st.payments ++
              [⟨st.nextId, w.id, w.salary_amount, "pending", none, none, none, none, u⟩],
            nextId := st.nextId + 1 }
      refine ⟨⟨st.nextId, w.id, w.salary_amount, "pending", none, none, none, none, u⟩ :: new,
        ?_, ?_⟩
      · rw [h1]; simp
      · intro p hp
        rcases List.mem_cons.mp hp with h | h
        · subst h; exact ⟨rfl, rfl⟩
        · exact h2 p h

/-- A pending-today witness survives appending more records. -/
theorem hasPendingToday_append (ps qs : List PaymentHistory) (wid : Nat) (t : Date)
    (h : hasPendingToday ps wid t = true) : hasPendingToday (ps ++ qs) wid t = true := by
  unfold hasPendingToday at h ⊢
  rw [List.any_append, h, Bool.true_or]

/-- If a worker id is guarded by a pending record created today, the sweep
loop leaves that worker's payment rows exactly as they were. -/
theorem sweepLoop_filter (today : Date) (u : DateTime) (wid : Nat) :
    ∀ (ws : List Worker) (st : DBState), hasPendingToday st.payments wid today = true →
      (sweepLoop today u ws st).payments.filter (fun p => p.worker_id == wid) =
        st.payments.filter (fun p => p.worker_id == wid)
  | [], _, _ => rfl
  | w :: ws, st, h => by
    unfold sweepLoop
    split
    · exact sweepLoop_filter today u wid ws st h
    · rename_i hguard
      have hw : (w.id == wid) = false := by
        by_cases he : w.id = wid
        · exact absurd (he ▸ h) hguard
        · simp [he]
      rw [sweepLoop_filter today u wid ws _ (hasPendingToday_append _ _ _ _ h)]
      simp [List.filter_append, hw]

/-- With pairwise-distinct worker ids, the sweep loop creates exactly one
record per unguarded listed worker. -/
theorem sweepLoop_length (today : Date) (u : DateTime) :
    ∀ (ws : List Worker) (st : DBState), (ws.map (fun w => w.id)).Nodup →
      (sweepLoop today u ws st).payments.length =
        st.payments.length +
          (ws.filter (fun w => !hasPendingToday st.payments w.id today)).length
  | [], st, _ => by simp [sweepLoop]
  | w :: ws, st, hnd => by
    have hhead : w.id ∉ ws.map (fun x => x.id) := (List.nodup_cons.mp hnd).1
    have htail : (ws.map (fun x => x.id)).Nodup := (List.nodup_cons.mp hnd).2
    unfold sweepLoop
    split
    · rename_i hguard
      rw [sweepLoop_length today u ws st htail]
      simp [List.filter_cons, hguard]
    · rename_i hguard
      have hguard2 : hasPendingToday st.payments w.id today = false :=
        Bool.eq_false_iff.mpr hguard
      rw [sweepLoop_length today u ws _ htail]
      have hcongr : ∀ w' ∈ ws,
          hasPendingToday (st.payments ++
            [⟨st.nextId, w.id, w.salary_amount, "pending", none, none, none, none, u⟩])
            w'.id today = hasPendingToday st.payments w'.id today := by
        intro w' hw'
        have hne : (w.id == w'.id) = false := by
          by_cases he : w.id = w'.id
          · exfalso; apply hhead; rw [he]
            exact List.mem_map_of_mem (fun x => x.id) hw'
          · simp [he]
        unfold hasPendingToday
        simp [List.any_append, hne]
      have hfilter :
          ws.filter (fun w' => !hasPendingToday (st.payments ++
            [⟨st.nextId, w.id, w.salary_amount, "pending", none, none, none, none, u⟩])
            w'.id today) =
          ws.filter (fun w' => !hasPendingToday st.payments w'.id today) := by
        apply List.filter_congr
        intro w' hw'
        rw [hcongr w' hw']
      simp only [hfilter]
      simp [List.filter_cons, hguard2, List.length_append]
      omega

/-! ## Claim C1 — the duplicate-pending guard -/

/-- C1, counterexample.  The claim asserts that once a pending record exists
for a worker on a calendar day, any further `openPayment` for that worker on
that day fails with `DuplicatePending` and creates no second record, on both
entry paths.  On the manual path this is false: with a pending record of
worker 1 created today already in the table, the manual endpoint performs no
duplicate check — it succeeds (no error of any kind) and inserts a second
record for worker 1 on the same day. -/
theorem claim_C1_counterexample :
    hasPendingToday stPending.payments 1 today0 = true ∧
    (process_payment stPending 1 none envOk 9 now0 today0).1 =
      .ok ⟨8, 1, 50000, "success", some "TRX123", some "TRF_1", some 9, some now0, now0⟩ ∧
    ((process_payment stPending 1 none envOk 9 now0 today0).2.payments.filter
        (fun p => p.worker_id == 1)).length = 2 := by
  refine ⟨by decide, ?_, ?_⟩ <;>
    norm_num [process_payment, stPending, envOk, wkA, pendingA, effAmount,
      closePaymentSuccess, advanceWorkerSchedule, updateWorker, List.find?, List.filter]

/-- C1 (amended): only the sweep path enforces the per-worker-per-day
guard — if a pending record created on day `today` exists for a worker id,
the daily sweep leaves that worker's payment rows untouched (creates
nothing for it).  The manual payment path performs no duplicate-pending
check at all: it opens and processes a second record for the same worker on
the same day and reports success rather than any `DuplicatePending` error
(no such error exists in the code). -/
theorem claim_C1_amended :
    ∀ (s : DBState) (today : Date) (utcnow : DateTime) (wid : Nat),
      hasPendingToday s.payments wid today = true →
      (check_pending_payments s today utcnow).payments.filter
          (fun p => p.worker_id == wid) =
        s.payments.filter (fun p => p.worker_id == wid) :=
  fun s today u wid h => sweepLoop_filter today u wid (workers_due s today) s h

/-- C1, witness: the sweep-path guard at a concrete state — worker 1 has a
pending record created on `today0`, and the sweep leaves worker 1's payment
rows exactly as they were. -/
theorem claim_C1_witness :
    hasPendingToday stPending.payments 1 today0 = true ∧
    (check_pending_payments stPending today0 now0).payments.filter
        (fun p => p.worker_id == 1) =
      stPending.payments.filter (fun p => p.worker_id == 1) :=
  ⟨by decide, claim_C1_amended stPending today0 now0 1 (by decide)⟩

/-! ## Claim C2 — what the daily sweep actually does -/

/-- C2, counterexample.  The claim asserts the sweep runs the full
open→execute→close sequence for every due worker.  At a concrete state with
one due worker the sweep creates exactly one record, that record is left
`pending` — never executed against the provider nor closed to
`success`/`failed` — and the worker row is untouched. -/
theorem claim_C2_counterexample :
    (check_pending_payments stFresh today0 now0).payments =
      [⟨1, 1, 50000, "pending", none, none, none, none, now0⟩] ∧
    ((check_pending_payments stFresh today0 now0).payments.filter
        (fun p => p.status == "success" || p.status == "failed")).length = 0 ∧
    (check_pending_payments stFresh today0 now0).workers = stFresh.workers := by
  refine ⟨?_, ?_, ?_⟩ <;> decide

/-- C2 (amended): the daily sweep body does *not* run open→execute→close.
For every state it leaves the `workers` table and the audit log unchanged
and only appends payment records, every one of which has status `pending`
(stamped with the sweep's `utcnow`); no transfer is executed and no record
is closed. -/
theorem claim_C2_amended (s : DBState) (today : Date) (utcnow : DateTime) :
    (check_pending_payments s today utcnow).workers = s.workers ∧
    (check_pending_payments s today utcnow).audits = s.audits ∧
    ∃ new, (check_pending_payments s today utcnow).payments = s.payments ++ new ∧
      ∀ p ∈ new, p.status = "pending" ∧ p.created_at = utcnow :=
  ⟨sweepLoop_workers today utcnow (workers_due s today) s,
   sweepLoop_audits today utcnow (workers_due s today) s,
   sweepLoop_payments today utcnow (workers_due s today) s⟩

/-! ## Claim C3 — the balance admission check -/

/-- C3, counterexample, on the spec's own scenario (balance ₦1,000 <
salary ₦50,000).  The claim asserts the pending record already created by
`openPayment` is then closed `failed`.  In the code the balance check runs
*before* any record is created: the manual request aborts with the
insufficient-balance error and the state is completely unchanged — no
record ever exists.  Moreover the claim's "admission check on every
transfer execution" is false for scheduler-originated payments: the
scheduled flow, given the same ₦1,000 balance, pays the ₦50,000 salary
anyway (record closed `success`). -/
theorem claim_C3_counterexample :
    wkA.salary_amount = 50000 ∧
    (process_payment stFresh 1 none envLowBalance 9 now0 today0).1 =
      .error .insufficientBalance ∧
    (process_payment stFresh 1 none envLowBalance 9 now0 today0).2 = stFresh ∧
    (process_scheduled_payment stFresh 1 envLowBalance now0 today0).payments =
      [⟨1, 1, 50000, "success", some "TRX123", none, none, some now0, now0⟩] := by
  refine ⟨rfl, ?_, ?_, ?_⟩ <;>
    norm_num [process_payment, process_scheduled_payment, process_worker_payment,
      stFresh, envLowBalance, wkA, effAmount, closePaymentSuccess,
      advanceWorkerSchedule, updateWorker, List.find?]

/-- C3 (amended): the manual path checks the provider balance before any
record is created — whenever the endpoint reaches a parsed balance body with
truthy status and a first entry below the requested amount, it fails with
the insufficient-balance error and returns the state unchanged (no record
created, worker untouched).  Scheduler-originated payments perform no
balance check at all: the scheduled flow's outcome is identical for any two
balances. -/
theorem claim_C3_amended :
    (∀ (s : DBState) (wid : Nat) (w : Worker) (reqA : Option ℚ) (user : Nat)
        (u : DateTime) (tl : Date) (bal : ℚ) (rest : List (Option ℚ))
        (rcpt : Except String RecipientJson) (trf : Except String TransferJson),
        s.workers.find? (fun x => x.id == wid) = some w →
        w.is_active = true →
        0 < effAmount reqA w.salary_amount →
        bal / 100 < effAmount reqA w.salary_amount →
        process_payment s wid reqA ⟨.ok ⟨true, some bal :: rest⟩, rcpt, trf⟩ user u tl =
          (.error .insufficientBalance, s)) ∧
    (∀ (s : DBState) (wid : Nat) (env : ProviderEnv)
        (b1 b2 : Except Unit BalanceJson) (u : DateTime) (tl : Date),
        process_scheduled_payment s wid { env with balance := b1 } u tl =
          process_scheduled_payment s wid { env with balance := b2 } u tl) := by
  constructor
  · intro s wid w reqA user u tl bal rest rcpt trf hfind hact hamt hblt
    simp only [process_payment, hfind]
    simp [hact, not_le.mpr hamt, hblt]
  · intro s wid env b1 b2 u tl
    rfl

/-- C3, witness: the manual-path fail-fast theorem applied at the concrete
insufficient-balance scenario. -/
theorem claim_C3_witness :
    (stFresh.workers.find? (fun x => x.id == 1) = some wkA ∧
      wkA.is_active = true ∧
      0 < effAmount none wkA.salary_amount ∧
      (100000:ℚ) / 100 < effAmount none wkA.salary_amount) ∧
    process_payment stFresh 1 none
        ⟨.ok ⟨true, some 100000 :: []⟩, .ok ⟨true, some "RCP_1"⟩,
         .ok ⟨true, some (some "TRX123"), some (some "TRF_1")⟩⟩ 9 now0 today0 =
      (.error .insufficientBalance, stFresh) :=
  ⟨⟨rfl, rfl, by norm_num [effAmount, wkA], by norm_num [effAmount, wkA]⟩,
   claim_C3_amended.1 stFresh 1 wkA none 9 now0 today0 100000 []
     (.ok ⟨true, some "RCP_1"⟩) (.ok ⟨true, some (some "TRX123"), some (some "TRF_1")⟩)
     rfl rfl (by norm_num [effAmount, wkA]) (by norm_num [effAmount, wkA])⟩

/-! ## Claim C4 — the reference date of the schedule advance -/

/-- What the manual endpoint computes on its success path: with the worker
found and active, a positive effective amount, a sufficient balance and a
fully successful provider run, the created record is closed `success`
(stamped `paid_at = utcnow`) and the worker is advanced via
`advanceWorkerSchedule` — i.e. `next_payment_date` is recomputed from the
server's current local date, not from `paid_at`. -/
theorem process_payment_success_run
    (s : DBState) (wid : Nat) (w : Worker) (reqA : Option ℚ) (user : Nat)
    (u : DateTime) (tl : Date) (bal : ℚ) (rest : List (Option ℚ))
    (rc : String) (refv tcv : Option String)
    (hfind : s.workers.find? (fun x => x.id == wid) = some w)
    (hact : w.is_active = true)
    (hamt : 0 < effAmount reqA w.salary_amount)
    (hbal : ¬(bal / 100 < effAmount reqA w.salary_amount)) :
    process_payment s wid reqA
        ⟨.ok ⟨true, some bal :: rest⟩, .ok ⟨true, some rc⟩,
         .ok ⟨true, some refv, some tcv⟩⟩ user u tl =
      (.ok { closePaymentSuccess
               ⟨s.nextId, w.id, effAmount reqA w.salary_amount, "pending", none, none,
                some user, none, u⟩ refv u with paystack_reference := tcv },
       { workers := updateWorker s.workers (advanceWorkerSchedule w u tl),
         payments := s.payments ++
           [{ closePaymentSuccess
                ⟨s.nextId, w.id, effAmount reqA w.salary_amount, "pending", none, none,
                 some user, none, u⟩ refv u with paystack_reference := tcv }],
         audits := s.audits ++ [(user, "payment_processed")],
         nextId := s.nextId + 1 }) := by
  simp only [process_payment, hfind]
  simp [hact, not_le.mpr hamt, hbal]

/-- C4, counterexample.  The claim asserts `next_payment_date` is computed
with `paidAt` as the reference date.  Concrete run of the scheduled flow:
the payment is stamped `paid_at` = 2024-06-30 23:30 UTC while the server's
local date is already 2024-07-01 (UTC+1 just past local midnight).  The
code sets `next_payment_date` to 2024-07-08 — computed from the local date
2024-07-01 — whereas the due date computed from `paidAt` per the spec
(`specNextDueDate`, weekly) is 2024-07-07. -/
theorem claim_C4_counterexample :
    (process_scheduled_payment stWeekly 2 envOk ⟨⟨2024, 6, 30⟩, 84600⟩ ⟨2024, 7, 1⟩).payments =
      [⟨1, 2, 1000, "success", some "TRX123", none, none,
        some ⟨⟨2024, 6, 30⟩, 84600⟩, ⟨⟨2024, 6, 30⟩, 84600⟩⟩] ∧
    (process_scheduled_payment stWeekly 2 envOk ⟨⟨2024, 6, 30⟩, 84600⟩ ⟨2024, 7, 1⟩).workers =
      [{ wkWeekly with last_paid := some ⟨⟨2024, 6, 30⟩, 84600⟩,
                       next_payment_date := some ⟨⟨2024, 7, 8⟩, 0⟩ }] ∧
    specNextDueDate "weekly" ⟨2024, 6, 30⟩ = ⟨2024, 7, 7⟩ ∧
    (⟨2024, 7, 8⟩ : Date) ≠ ⟨2024, 7, 7⟩ := by
  refine ⟨?_, ?_, by decide, by decide⟩ <;>
    · norm_num [process_scheduled_payment, process_worker_payment, stWeekly, envOk,
        wkWeekly, closePaymentSuccess, advanceWorkerSchedule, updateWorker, List.find?]
      try decide

/-- C4 (amended): on a successful close the worker's `last_paid` and the
record's `paid_at` are stamped with the current UTC time, but
`next_payment_date` is `calculate_next_payment_date(frequency)` evaluated
at the server's current *local* calendar date — the stored `paid_at` is not
the reference.  This holds on both paths: the scheduled flow and the manual
endpoint. -/
theorem claim_C4_amended :
    (∀ (s : DBState) (wid : Nat) (w : Worker) (env : ProviderEnv)
        (u : DateTime) (tl : Date),
        s.workers.find? (fun x => x.id == wid) = some w →
        w.is_active = true →
        (process_worker_payment env).1 = true →
        process_scheduled_payment s wid env u tl =
          { workers := updateWorker s.workers (advanceWorkerSchedule w u tl),
            payments := s.payments ++
              [closePaymentSuccess
                 ⟨s.nextId, w.id, w.salary_amount, "pending", none, none, none, none, u⟩
                 (process_worker_payment env).2.2 u],
            audits := s.audits ++ [(0, "scheduled_payment_processed")],
            nextId := s.nextId + 1 }) ∧
    (∀ (w : Worker) (u : DateTime) (tl : Date),
        (advanceWorkerSchedule w u tl).next_payment_date =
          some ⟨calculate_next_payment_date w.payment_frequency tl, 0⟩ ∧
        (advanceWorkerSchedule w u tl).last_paid = some u) := by
  constructor
  · intro s wid w env u tl hfind hact hok
    simp only [process_scheduled_payment, hfind]
    simp [hact, hok]
  · intro w u tl
    exact ⟨rfl, rfl⟩

/-- C4, witness: the scheduled-flow equation at the concrete
timezone-boundary run of the counterexample. -/
theorem claim_C4_witness :
    (stWeekly.workers.find? (fun x => x.id == 2) = some wkWeekly ∧
      wkWeekly.is_active = true ∧ (process_worker_payment envOk).1 = true) ∧
    process_scheduled_payment stWeekly 2 envOk ⟨⟨2024, 6, 30⟩, 84600⟩ ⟨2024, 7, 1⟩ =
      { workers := updateWorker stWeekly.workers
          (advanceWorkerSchedule wkWeekly ⟨⟨2024, 6, 30⟩, 84600⟩ ⟨2024, 7, 1⟩),
        payments := stWeekly.payments ++
          [closePaymentSuccess
             ⟨stWeekly.nextId, wkWeekly.id, wkWeekly.salary_amount, "pending",
              none, none, none, none, ⟨⟨2024, 6, 30⟩, 84600⟩⟩
             (process_worker_payment envOk).2.2 ⟨⟨2024, 6, 30⟩, 84600⟩],
        audits := stWeekly.audits ++ [(0, "scheduled_payment_processed")],
        nextId := stWeekly.nextId + 1 } :=
  ⟨⟨rfl, rfl, rfl⟩,
   claim_C4_amended.1 stWeekly 2 wkWeekly envOk ⟨⟨2024, 6, 30⟩, 84600⟩ ⟨2024, 7, 1⟩
     rfl rfl rfl⟩

/-! ## Claim C5 — single transition to a terminal state -/

/-- C5, counterexample.  The claim asserts a second `closePaymentSuccess`
on the same record is rejected as already-terminal and does not advance the
schedule again.  The source's success transition is an unconditional
assignment block: applied to a record already in status `success` it is not
rejected — it overwrites the reference and `paid_at` — and re-applying the
worker-side advance on a later day moves `next_payment_date` forward
again. -/
theorem claim_C5_counterexample :
    (closePaymentSuccess
        ⟨3, 1, 50000, "success", some "TRXA", none, none,
         some ⟨⟨2024, 5, 1⟩, 100⟩, ⟨⟨2024, 5, 1⟩, 50⟩⟩
        (some "TRXB") ⟨⟨2024, 5, 2⟩, 200⟩ =
      ⟨3, 1, 50000, "success", some "TRXB", none, none,
       some ⟨⟨2024, 5, 2⟩, 200⟩, ⟨⟨2024, 5, 1⟩, 50⟩⟩) ∧
    (some "TRXB" : Option String) ≠ some "TRXA" ∧
    ((advanceWorkerSchedule
        (advanceWorkerSchedule wkWeekly ⟨⟨2024, 6, 30⟩, 0⟩ ⟨2024, 6, 30⟩)
        ⟨⟨2024, 7, 1⟩, 0⟩ ⟨2024, 7, 1⟩).next_payment_date = some ⟨⟨2024, 7, 8⟩, 0⟩) ∧
    ((advanceWorkerSchedule wkWeekly ⟨⟨2024, 6, 30⟩, 0⟩ ⟨2024, 6, 30⟩).next_payment_date =
      some ⟨⟨2024, 7, 7⟩, 0⟩) := by
  refine ⟨by decide, by decide, by decide, by decide⟩

/-- C5 (amended): within each flow a record is closed at most once — the
sweep never closes anything (every record after a sweep is either
preexisting or `pending`), and the scheduled flow never rewrites existing
rows (it only appends at most one, its own, record).  But there is no
already-terminal guard: the success transition is total and unconditional,
so applied to a record whose status is already terminal it silently
overwrites it instead of rejecting it; `cancelled` is never produced by any
flow. -/
theorem claim_C5_amended :
    (∀ (r : PaymentHistory) (ref : Option String) (t : DateTime),
        r.status = "success" ∨ r.status = "failed" ∨ r.status = "cancelled" →
        (closePaymentSuccess r ref t).status = "success" ∧
        (closePaymentSuccess r ref t).transaction_reference = ref ∧
        (closePaymentSuccess r ref t).paid_at = some t) ∧
    (∀ (s : DBState) (today : Date) (u : DateTime) (p : PaymentHistory),
        p ∈ (check_pending_payments s today u).payments →
        p ∈ s.payments ∨ p.status = "pending") ∧
    (∀ (s : DBState) (wid : Nat) (env : ProviderEnv) (u : DateTime) (tl : Date),
        ∃ suf, (process_scheduled_payment s wid env u tl).payments = s.payments ++ suf ∧
          suf.length ≤ 1) := by
  refine ⟨fun r ref t _ => ⟨rfl, rfl, rfl⟩, ?_, ?_⟩
  · intro s today u p hp
    obtain ⟨new, h1, h2⟩ := sweepLoop_payments today u (workers_due s today) s
    rw [check_pending_payments] at hp
    rw [h1] at hp
    rcases List.mem_append.mp hp with h | h
    · exact Or.inl h
    · exact Or.inr (h2 p h).1
  · intro s wid env u tl
    cases hfind : s.workers.find? (fun w => w.id == wid) with
    | none =>
      refine ⟨[], ?_, by simp⟩
      simp [process_scheduled_payment, hfind]
    | some w =>
      by_cases hact : w.is_active = true
      · cases hres : (process_worker_payment env).1 with
        | true =>
          refine ⟨[closePaymentSuccess
              ⟨s.nextId, w.id, w.salary_amount, "pending", none, none, none, none, u⟩
              (process_worker_payment env).2.2 u], ?_, by simp⟩
          simp [process_scheduled_payment, hfind, hact, hres]
        | false =>
          refine ⟨[⟨s.nextId, w.id, w.salary_amount, "failed",
              none, none, none, none, u⟩], ?_, by simp⟩
          simp [process_scheduled_payment, hfind, hact, hres]
      · refine ⟨[], ?_, by simp⟩
        simp [process_scheduled_payment, hfind, hact]

/-- C5, witness: the no-guard fact applied to a concrete already-`success`
record — the second close is accepted and restamps the record. -/
theorem claim_C5_witness :
    (("success":String) = "success" ∨ ("success":String) = "failed" ∨
      ("success":String) = "cancelled") ∧
    ((closePaymentSuccess
        ⟨3, 1, 50000, "success", some "TRXA", none, none, none, ⟨today0, 0⟩⟩
        (some "TRXB") now0).status = "success" ∧
      (closePaymentSuccess
        ⟨3, 1, 50000, "success", some "TRXA", none, none, none, ⟨today0, 0⟩⟩
        (some "TRXB") now0).transaction_reference = some "TRXB" ∧
      (closePaymentSuccess
        ⟨3, 1, 50000, "success", some "TRXA", none, none, none, ⟨today0, 0⟩⟩
        (some "TRXB") now0).paid_at = some now0) :=
  ⟨Or.inl rfl,
   claim_C5_amended.1
     ⟨3, 1, 50000, "success", some "TRXA", none, none, none, ⟨today0, 0⟩⟩
     (some "TRXB") now0 (Or.inl rfl)⟩

/-! ## Claim C6 — which workers `listDue` returns -/

/-- C6, counterexample.  The claim asserts an active worker with a null
`next_payment_date` is included.  Concretely: `wkNull` is active with
`next_payment_date` NULL, yet the due list is empty and the sweep creates
no record for it — the SQL comparison `next_payment_date <= ...` is never
satisfied by a NULL column. -/
theorem claim_C6_counterexample :
    wkNull.is_active = true ∧ wkNull.next_payment_date = none ∧
    wkNull ∈ stNull.workers ∧ listDue stNull today0 = [] ∧
    (check_pending_payments stNull today0 now0).payments = [] := by
  refine ⟨rfl, rfl, ?_, by decide, by decide⟩
  exact List.mem_singleton.mpr rfl

/-- C6 (amended): the due list consists of exactly the active workers whose
`next_payment_date` is non-NULL and at most the end of the given day, minus
those already guarded by a pending record created that day (NULL
`next_payment_date` workers are excluded); and, when worker ids are
pairwise distinct, the sweep creates exactly one record per listed
worker. -/
theorem claim_C6_amended :
    (∀ (s : DBState) (today : Date) (w : Worker),
        w ∈ listDue s today ↔
          w ∈ s.workers ∧ w.is_active = true ∧
            (∃ d, w.next_payment_date = some d ∧
              DateTime.le d ⟨today, dayEndSec⟩ = true) ∧
            hasPendingToday s.payments w.id today = false) ∧
    (∀ (s : DBState) (today : Date) (u : DateTime),
        (s.workers.map (fun w => w.id)).Nodup →
        (check_pending_payments s today u).payments.length =
          s.payments.length + (listDue s today).length) := by
  constructor
  · intro s today w
    unfold listDue workers_due
    simp only [List.mem_filter, Bool.and_eq_true, Bool.not_eq_true']
    constructor
    · rintro ⟨⟨hmem, hact, hdue⟩, hguard⟩
      refine ⟨hmem, hact, ?_, hguard⟩
      rcases hnp : w.next_payment_date with _ | d
      · rw [hnp] at hdue; exact absurd hdue (by simp)
      · rw [hnp] at hdue; exact ⟨d, rfl, hdue⟩
    · rintro ⟨hmem, hact, ⟨d, hnp, hle⟩, hguard⟩
      exact ⟨⟨hmem, hact, by rw [hnp]; exact hle⟩, hguard⟩
  · intro s today u hnd
    have hnd2 : ((workers_due s today).map (fun w => w.id)).Nodup :=
      List.Nodup.sublist (List.Sublist.map _ (List.filter_sublist _)) hnd
    exact sweepLoop_length today u (workers_due s today) s hnd2

/-- C6, witness: the sweep-count equation at a concrete one-worker state —
one due worker, one record created. -/
theorem claim_C6_witness :
    (stFresh.workers.map (fun w => w.id)).Nodup ∧
    (check_pending_payments stFresh today0 now0).payments.length =
      stFresh.payments.length + (listDue stFresh today0).length :=
  ⟨by decide, claim_C6_amended.2 stFresh today0 now0 (by decide)⟩

/-! ## Claim C7 — amount defaulting and validation -/

/-- C7, counterexample.  The claim asserts a supplied amount of exactly 0 is
rejected as `InvalidAmount`.  Concretely: with worker salary 50000, a manual
request carrying amount 0 is *not* rejected — Python's
`payment_request.amount or float(worker.salary_amount)` treats `0.0` as
falsy, silently replaces it by the salary, and the payment goes through for
₦50,000. -/
theorem claim_C7_counterexample :
    wkA.salary_amount = 50000 ∧
    (process_payment stFresh 1 (some 0) envOk 9 now0 today0).1 =
      .ok ⟨1, 1, 50000, "success", some "TRX123", some "TRF_1", some 9, some now0, now0⟩ ∧
    (process_payment stFresh 1 (some 0) envOk 9 now0 today0).1 ≠
      .error .invalidAmount := by
  have hok : (process_payment stFresh 1 (some 0) envOk 9 now0 today0).1 =
      .ok ⟨1, 1, 50000, "success", some "TRX123", some "TRF_1", some 9, some now0, now0⟩ := by
    norm_num [process_payment, stFresh, envOk, wkA, effAmount, closePaymentSuccess,
      advanceWorkerSchedule, updateWorker, List.find?]
  refine ⟨rfl, hok, ?_⟩
  rw [hok]
  simp

/-- C7 (amended): a supplied amount of 0 is Python-falsy and behaves exactly
like omitting the amount (both fall back to the worker's salary — a request
for 0 is never rejected); a *negative* supplied amount is rejected with the
invalid-amount error and leaves the state unchanged; and with no amount
supplied, a successful manual payment is for exactly the worker's salary. -/
theorem claim_C7_amended :
    (∀ (s : DBState) (wid : Nat) (env : ProviderEnv) (user : Nat)
        (u : DateTime) (tl : Date),
        process_payment s wid (some 0) env user u tl =
          process_payment s wid none env user u tl) ∧
    (∀ (s : DBState) (wid : Nat) (w : Worker) (a : ℚ) (env : ProviderEnv) (user : Nat)
        (u : DateTime) (tl : Date),
        s.workers.find? (fun x => x.id == wid) = some w →
        w.is_active = true → a < 0 →
        process_payment s wid (some a) env user u tl = (.error .invalidAmount, s)) ∧
    (∀ (s : DBState) (wid : Nat) (w : Worker) (user : Nat) (u : DateTime) (tl : Date)
        (bal : ℚ) (rest : List (Option ℚ)) (rc : String) (refv tcv : Option String),
        s.workers.find? (fun x => x.id == wid) = some w →
        w.is_active = true → 0 < w.salary_amount →
        ¬(bal / 100 < w.salary_amount) →
        (process_payment s wid none
            ⟨.ok ⟨true, some bal :: rest⟩, .ok ⟨true, some rc⟩,
             .ok ⟨true, some refv, some tcv⟩⟩ user u tl).1 =
          .ok { closePaymentSuccess
                  ⟨s.nextId, w.id, w.salary_amount, "pending", none, none, some user,
                   none, u⟩ refv u with paystack_reference := tcv }) := by
  refine ⟨?_, ?_, ?_⟩
  · intro s wid env user u tl
    cases hfind : s.workers.find? (fun x => x.id == wid) with
    | none => simp [process_payment, hfind]
    | some w =>
      simp only [process_payment, hfind]
      rw [show effAmount (some 0) w.salary_amount = effAmount none w.salary_amount from
        by simp [effAmount]]
  · intro s wid w a env user u tl hfind hact hneg
    have ha : effAmount (some a) w.salary_amount = a := by
      simp [effAmount, hneg.ne]
    simp only [process_payment, hfind]
    simp [hact, ha, le_of_lt hneg]
  · intro s wid w user u tl bal rest rc refv tcv hfind hact hsal hbal
    have h0 : 0 < effAmount none w.salary_amount := hsal
    have hb : ¬(bal / 100 < effAmount none w.salary_amount) := hbal
    rw [process_payment_success_run s wid w none user u tl bal rest rc refv tcv
      hfind hact h0 hb]
    simp [effAmount]

/-- C7, witness: a concrete negative amount is rejected with the
invalid-amount error. -/
theorem claim_C7_witness :
    (stFresh.workers.find? (fun x => x.id == 1) = some wkA ∧
      wkA.is_active = true ∧ ((-5:ℚ) < 0)) ∧
    process_payment stFresh 1 (some (-5)) envOk 9 now0 today0 =
      (.error .invalidAmount, stFresh) :=
  ⟨⟨rfl, rfl, by norm_num⟩,
   claim_C7_amended.2.1 stFresh 1 wkA (-5) envOk 9 now0 today0 rfl rfl (by norm_num)⟩

/-! ## Claim C8 — the monthly due-date computation -/

/-- C8: for every valid reference date, the source's monthly computation
equals the spec's clamp rule — the same day-of-month in the following month
when that day exists there, otherwise the last day of the following month,
with December rolling the year forward (`specNextDueDate` encodes exactly
that rule, including the year roll). -/
theorem claim_C8 (d : Date) (hd : validDate d) :
    calculate_next_payment_date "monthly" d = specNextDueDate "monthly" d := by
  obtain ⟨hm1, hm2, hd1, hd2⟩ := hd
  have hw : ("monthly" == "weekly") = false := by decide
  have hb : ("monthly" == "bi-weekly") = false := by decide
  unfold calculate_next_payment_date specNextDueDate
  rw [hw, hb]
  by_cases hm : d.month = 12
  · have h31 : d.day ≤ 31 := by
      have : daysInMonth d.year d.month = 31 := by rw [hm]; simp [daysInMonth]
      omega
    simp [hm, daysInMonth, h31]
  · have hmeq : (d.month == 12) = false := by simp [hm]
    simp only [hmeq, Bool.false_eq_true, if_false, if_neg]
    by_cases hday : d.day ≤ daysInMonth d.year (d.month + 1)
    · simp [hday]
    · by_cases h11 : d.month + 1 = 12
      · exfalso
        have he1 : daysInMonth d.year (d.month + 1) = 31 := by rw [h11]; simp [daysInMonth]
        have he2 : daysInMonth d.year d.month = 30 := by
          rw [show d.month = 11 from by omega]; simp [daysInMonth]
        omega
      · have h1lt : 1 < d.month + 1 + 1 := by omega
        have hne11 : ¬d.month = 11 := by omega
        simp [hday, predDate, h1lt, hne11]

/-- C8, witness: the theorem at Jan 31 of a leap year — both sides compute
Feb 29. -/
theorem claim_C8_witness :
    validDate ⟨2024, 1, 31⟩ ∧
    calculate_next_payment_date "monthly" ⟨2024, 1, 31⟩ =
      specNextDueDate "monthly" ⟨2024, 1, 31⟩ :=
  ⟨by decide, claim_C8 ⟨2024, 1, 31⟩ (by decide)⟩

/-! ## Claim C9 — the transfer pipeline's return contract -/

/-- C9, counterexample.  The claim asserts the returned reference is
non-None exactly when success is true.  A provider transfer response with
truthy status but a JSON-`null` reference value yields
`(True, "Payment processed successfully", None)` — success with a `None`
reference. -/
theorem claim_C9_counterexample :
    process_worker_payment envNullRef = (true, "Payment processed successfully", none) :=
  rfl

/-- C9 (amended): `process_worker_payment` always returns a
`(success, message, reference)` triple (every raised step exception is
caught and mapped to a failure triple); whenever success is false the
reference is `None`; and whenever success is true the reference is exactly
the value the provider supplied under `data["reference"]` — which is
non-None unless the provider returns an explicit JSON `null` there. -/
theorem claim_C9_amended :
    (∀ env : ProviderEnv, (process_worker_payment env).1 = false →
        (process_worker_payment env).2.2 = none) ∧
    (∀ env : ProviderEnv, (process_worker_payment env).1 = true →
        ∃ td : TransferJson, env.transfer = .ok td ∧ td.status = true ∧
          td.reference = some (process_worker_payment env).2.2) := by
  constructor <;>
    · intro env
      rcases env with ⟨b, r, t⟩
      rcases r with e | rd
      · simp [process_worker_payment]
      · by_cases hst : rd.status = true
        · rcases hrc : rd.recipient_code with _ | rc
          · simp [process_worker_payment, hst, hrc]
          · rcases t with e2 | td
            · simp [process_worker_payment, hst, hrc]
            · by_cases hts : td.status = true
              · rcases hrf : td.reference with _ | rv
                · simp [process_worker_payment, hst, hrc, hts, hrf]
                · simp [process_worker_payment, hst, hrc, hts, hrf]
              · simp [process_worker_payment, hst, hrc, hts]
        · simp [process_worker_payment, hst]

/-- C9, witness: a concrete network failure at the recipient step is caught
and mapped to a failure triple with a `None` reference. -/
theorem claim_C9_witness :
    (process_worker_payment envNetFail).1 = false ∧
    (process_worker_payment envNetFail).2.2 = none :=
  ⟨rfl, claim_C9_amended.1 envNetFail rfl⟩

/-! ## Claim C10 — the fee schedule and unbounded-below net amount -/

/-- C10: `calculate_net_amount` returns exactly `(gross - fee, fee)` with
the fee drawn from the tier of the gross amount (10 below 5,000; 25 up to
50,000; 50 above), with no lower bound on the net: every positive gross
below the lowest-tier fee of 10 yields a negative net, e.g. gross 5 yields
net −5. -/
theorem claim_C10 :
    (∀ g : ℚ, calculate_net_amount g =
        (g - (if g < 5000 then (10:ℚ) else if g ≤ 50000 then 25 else 50),
         if g < 5000 then (10:ℚ) else if g ≤ 50000 then 25 else 50)) ∧
    (∀ g : ℚ, 0 < g → g < 10 → (calculate_net_amount g).1 < 0) ∧
    calculate_net_amount 5 = (-5, 10) := by
  refine ⟨fun g => rfl, ?_, ?_⟩
  · intro g h0 h10
    have hf : get_transaction_fee g = 10 := by
      unfold get_transaction_fee
      rw [if_pos (lt_trans h10 (by norm_num))]
    simp only [calculate_net_amount, hf]
    linarith
  · norm_num [calculate_net_amount, get_transaction_fee]

/-- C10, witness: the negative-net fact at gross amount 5. -/
theorem claim_C10_witness :
    (0:ℚ) < 5 ∧ (5:ℚ) < 10 ∧ (calculate_net_amount 5).1 < 0 :=
  ⟨by norm_num, by norm_num, claim_C10.2.1 5 (by norm_num) (by norm_num)⟩

end Payroll
